import Mathlib

/-!
Verification of the `elk` ensemble-lightcurve pipeline
(`src/elk/ensemble.py` and `src/elk/utils.py`) against its
natural-language specification.

The Python code is shallowly embedded: the mutable attributes of an
`EnsembleLC` object become an explicit state record (`EState`), the
external collaborators (the lightkurve download layer, the
`TESSCutLightcurve` adapter and the scipy least-squares solver) become
oracle parameters, fallible Python code becomes `Except PyErr`, and the
filesystem of persisted artifacts becomes an explicit association list.
-/

namespace Elk

/-- Python exception kinds that the embedded code can raise. -/
inductive PyErr
  | typeError
  | keyError
  | assertionError
  | indexError
  deriving DecidableEq, Repr

/-- A dynamically-typed Python value as it appears in a FITS header card
(string, number, boolean or `None`). -/
inductive HVal
  | str (s : String)
  | nat (n : Nat)
  | rat (q : ℚ)
  | bool (b : Bool)
  | none
  deriving DecidableEq, Repr

/-- Python `str(...)` of a header value (used in path construction). -/
def pyStr : HVal → String
  | .str s => s
  | .nat n => toString n
  | .rat q => toString q
  | .bool b => toString b
  | .none => "None"

/-- One stored time-series record of the persisted artifact (the table held
by one extension HDU).

Modelled from the spec: `lc.hdu` is produced by `elk/lightcurve.py`, which is
not under `src/`; per the spec (§3, §6) a record holds the corrected time
series (columns time, flux, flux error at minimum), and per §4.4 the
access-by-index path can determine the stored good-observation count from the
artifact, so the record additionally carries that count. -/
structure LcTable where
  time : List ℚ
  flux : List ℚ
  flux_err : List ℚ
  n_good_obs : Nat
  deriving DecidableEq, Repr

/-- The mutable attribute state of an `EnsembleLC` object
(`EnsembleLC.__init__`, lines 100-119, plus `sectors_available` which
`has_tess_data` sets, plus `n_cache_purges`, which counts how many times
`clear_cache` has deleted the cached fits files — the cache-directory
contents themselves are external to the embedding). -/
structure EState where
  cluster_name : HVal
  location : HVal
  callable : HVal
  output_path : Option String
  radius : HVal
  cluster_age : HVal
  percentile : Nat
  cutout_size : Nat
  scattered_light_frequency : Nat
  n_pca : Nat
  verbose : Bool
  no_lk_cache : Bool
  debug : Bool
  save_lcs : Bool
  save_figures : Bool
  sectors_available : Nat
  n_failed_download : Nat
  n_near_edge : Nat
  n_scattered_light : Nat
  n_good_obs : Nat
  lcs : List (Option LcTable)
  n_cache_purges : Nat
  deriving DecidableEq, Repr

/-- Model of `clear_cache` (lines 160-164): removes every cached `.fits` file; in the
embedding only the number of purges is observable. -/
def EState.purge (st : EState) : EState :=
  { st with n_cache_purges := st.n_cache_purges + 1 }

/-- Lines 239-240 of `get_lcs`: purge the cache before a download attempt
when `no_lk_cache` is set. -/
def EState.purgeIf (st : EState) : EState :=
  if st.no_lk_cache then st.purge else st

/-- The three quality gates of `get_lcs`, in evaluation order. -/
inductive Gate
  | download
  | edge
  | scatter
  deriving DecidableEq, Repr

/-- Terminal fate of one processed observation. -/
inductive ObsResult
  | failed (g : Gate)
  | passed
  deriving DecidableEq, Repr

/-- Counter mutation for one terminal fate (lines 247/252, 263/268, 277/282,
288 of `get_lcs`). -/
def EState.bump (st : EState) : ObsResult → EState
  | .failed .download => { st with n_failed_download := st.n_failed_download + 1 }
  | .failed .edge => { st with n_near_edge := st.n_near_edge + 1 }
  | .failed .scatter => { st with n_scattered_light := st.n_scattered_light + 1 }
  | .passed => { st with n_good_obs := st.n_good_obs + 1 }

/-- The failure counter belonging to a gate. -/
def EState.gateCounter (st : EState) : Gate → Nat
  | .download => st.n_failed_download
  | .edge => st.n_near_edge
  | .scatter => st.n_scattered_light

/-- Sum of the four terminal-fate counters. -/
def EState.counterSum (st : EState) : Nat :=
  st.n_good_obs + st.n_failed_download + st.n_near_edge + st.n_scattered_light

/-- The four terminal-fate counters as a vector. -/
def EState.cv (st : EState) : Fin 4 → Nat := fun j =>
  match j with
  | 0 => st.n_good_obs
  | 1 => st.n_failed_download
  | 2 => st.n_near_edge
  | 3 => st.n_scattered_light

/-- Oracles for the external collaborators consulted by `get_lcs`:
`downloadOK i` is whether `downloadable(i)` returns data rather than `None`;
`nearEdge i` is the adapter's `near_edge()`; `scatter i` is the
scattered-light verdict for observation `i` after `correct_lc()`; and
`record i` is the corrected record (`lc`, later `lc.hdu`) stored on a pass. -/
structure GateEnv where
  downloadOK : Nat → Bool
  nearEdge : Nat → Bool
  scatter : Nat → Bool
  record : Nat → LcTable

/-- The list of gates evaluated up to and including a given gate. -/
def gatesThrough : Gate → List Gate
  | .download => [.download]
  | .edge => [.download, .edge]
  | .scatter => [.download, .edge, .scatter]

/-- The gate evaluation for one observation index (lines 243-283 of
`get_lcs`, without the position-dependent skip/abort policy): the result of
the first failing gate, together with the list of gates actually evaluated
for that index, in order. -/
def processObs (env : GateEnv) (i : Nat) : ObsResult × List Gate :=
  if env.downloadOK i = false then (.failed .download, [.download])
  else if env.nearEdge i then (.failed .edge, [.download, .edge])
  else if env.scatter i then (.failed .scatter, [.download, .edge, .scatter])
  else (.passed, [.download, .edge, .scatter])

/-- The `for sector_ind in range(self.sectors_available)` loop of `get_lcs`
(lines 234-305) over the list of remaining indices.  Returns the final state
and whether the loop was aborted by an early `return` (the last-candidate
gate-failure policy: lines 249-253, 265-269, 279-283).  A non-last failure
executes `continue`; a pass stores the record in its slot (line 289). -/
def runSteps (env : GateEnv) (N : Nat) : List Nat → EState → EState × Bool
  | [], st => (st, false)
  | i :: rest, st =>
    let st1 := st.purgeIf
    match (processObs env i).1 with
    | .failed g =>
      let st2 := st1.bump (.failed g)
      if i + 1 < N then runSteps env N rest st2
      else (st2, true)
    | .passed =>
      let st2 := st1.bump .passed
      let st3 := { st2 with lcs := st2.lcs.set i (some (env.record i)) }
      runSteps env N rest st3

/-- Model of `get_lcs` (lines 208-308): initializes the slot list (line 231), runs the
gate loop, and — on normal loop completion only — executes line 307,
`if self.no_lk_cache():`, which calls a `bool` and therefore raises
`TypeError`; the early `return` paths skip line 307. -/
def get_lcs (env : GateEnv) (st : EState) : Except PyErr EState :=
  let st0 := { st with lcs := List.replicate st.sectors_available none }
  let r := runSteps env st.sectors_available (List.range st.sectors_available) st0
  if r.2 then .ok r.1
  else .error .typeError

/-- Model of `np.arange(0, n, freq)` (line 175): the sampled frame indices
`0, freq, 2·freq, …` strictly below `n` (for `freq ≥ 1` there are
`⌈n / freq⌉` of them). -/
def timeSteps (n freq : Nat) : List Nat :=
  (List.range ((n + freq - 1) / freq)).map (· * freq)

/-- Model of `max(abs(xs))` over a sampled coefficient list (lines 195-197); on the
nonempty lists produced for a nonempty stack this fold from `0` agrees with
numpy's `max` because every `|x|` is nonnegative. -/
def maxAbs (xs : List ℚ) : ℚ :=
  xs.foldl (fun m x => max m |x|) 0

/-- Model of `EnsembleLC.scattered_light` (lines 166-206).  The residual image stack
and the scipy least-squares solve are external numerics; `fit t` is the
plane-coefficient triple `(a, b, c)` that `scipy.linalg.lstsq` returns for
the residual frame at time index `t` (the spec fixes only these three output
coefficients, not the solver).  `n` is the stack length
`len(quality_tpfs)`. -/
def scattered_light (debug : Bool) (freq n : Nat) (fit : Nat → ℚ × ℚ × ℚ) : Bool :=
  if debug then false
  else
    let steps := timeSteps n freq
    let coeffs := steps.map fit
    let mxc := maxAbs (coeffs.map (·.1))
    let myc := maxAbs (coeffs.map (·.2.1))
    let mzc := maxAbs (coeffs.map (·.2.2))
    (mzc > 5/2) || (mxc > 1/50 && myc > 1/50)

/-- Model of `flux_to_mag` (`src/elk/utils.py`, lines 12-28):
`2.5 * log10(f1 / flux) + m1` with calibration `m1 = 10`, `f1 = 15000`. -/
noncomputable def flux_to_mag (flux : ℝ) : ℝ :=
  2.5 * Real.logb 10 (15000 / flux) + 10

/-! ### Persistence: headers, artifacts and the filesystem -/

/-- A FITS primary header: an ordered list of keyword/value cards.  FITS
keyword lookup is case-insensitive; every header key this code writes and
reads is spelled with identical casing on both sides (only `'Log Age'` vs
`"Log_Age"` differ, and they differ in more than case), so exact string
matching is a faithful model of the lookup. -/
abbrev Header := List (String × HVal)

/-- Assignment `hdr[k] = v` (appends the card, as for fresh keywords). -/
def headerSet (h : Header) (k : String) (v : HVal) : Header :=
  h ++ [(k, v)]

/-- Lookup `hdr[k]`: the first card with keyword `k`, or a `KeyError`. -/
def headerGet (h : Header) (k : String) : Except PyErr HVal :=
  match h.find? (fun p => p.1 = k) with
  | some p => .ok p.2
  | Option.none => .error .keyError

/-- The header written by `lightcurves_summary_file` (lines 334-344). -/
def summaryHeader (st : EState) : Header :=
  headerSet (headerSet (headerSet (headerSet (headerSet (headerSet (headerSet
    (headerSet (headerSet (headerSet [] "Name" st.cluster_name)
      "Location" st.location)
      "Radius [deg]" st.radius)
      "Log Age" st.cluster_age)
      "Has_TESS_Data" (.bool (decide (0 < st.sectors_available))))
      "n_obs_available" (.nat st.sectors_available))
      "n_good_obs" (.nat st.n_good_obs))
      "n_failed_download" (.nat st.n_failed_download))
      "n_near_edge" (.nat st.n_near_edge))
      "n_scattered_light" (.nat st.n_scattered_light)

/-- The persisted artifact: the primary header plus one time-series HDU per
surviving observation (HDU positions `1, …, k`). -/
structure Artifact where
  header : Header
  records : List LcTable
  deriving DecidableEq, Repr

/-- The `fits.HDUList` built at lines 345-346: the primary header plus
`[lc.hdu for lc in self.lcs if lc is not None]`. -/
def savedArtifact (st : EState) : Artifact :=
  { header := summaryHeader st, records := st.lcs.filterMap id }

/-- Model of `Table.read(path, hdu=i)` for `i ≥ 1`: the table stored in extension HDU
`i` (`IndexError` when the artifact has no such HDU). -/
def tableRead (a : Artifact) (hdu : Nat) : Except PyErr LcTable :=
  match a.records.get? (hdu - 1) with
  | some t => .ok t
  | Option.none => .error .indexError

/-- The artifact filesystem: paths mapped to persisted artifacts. -/
abbrev FS := List (String × Artifact)

/-- Model of `os.path.exists` and of reading the artifact at a path. -/
def FS.get (fs : FS) (p : String) : Option Artifact :=
  (fs.find? (fun e => e.1 = p)).map (fun e => e.2)

/-- Model of `hdul.writeto(path)` on a fresh path. -/
def FS.put (fs : FS) (p : String) (a : Artifact) : FS :=
  (p, a) :: fs

/-- The artifact path for a configured output folder `p`:
`os.path.join(output_path, 'Corrected_LCs/', str(callable) + 'output_table.fits')`
(line 318; lines 132 and 366 assemble the same string). -/
def lcPathStr (p : String) (st : EState) : String :=
  p ++ "/Corrected_LCs/" ++ pyStr st.callable ++ "output_table.fits"

/-- The artifact path of the current state.  `os.path.join(None, …)` raises
`TypeError`, so an absent `output_path` is an error, not a skip. -/
def lcPath (st : EState) : Except PyErr String :=
  match st.output_path with
  | Option.none => .error .typeError
  | some p => .ok (lcPathStr p st)

/-- Lines 334-348 of `lightcurves_summary_file`: build the header and HDU
list from the current state and write them to the artifact path when an
output folder is configured (the guard at line 347); the caller receives
Python's implicit `None`.  `ran` records whether the pipeline loop was
invoked on this call. -/
def summaryWrite (st2 : EState) (fs : FS) (path : String) (ran : Bool) :
    Option LcTable × EState × FS × Bool :=
  (Option.none, st2,
    if st2.output_path.isSome then FS.put fs path (savedArtifact st2) else fs, ran)

/-- Model of `EnsembleLC.lightcurves_summary_file` (lines 310-348), with the TESS
search result count `N` (`has_tess_data` sets `sectors_available := N` and
reports `N > 0`) and the gate oracles as parameters.  The result carries the
value returned to the caller (`Table.read(LC_PATH, hdu=1)` on the
short-circuit path, Python's implicit `None` otherwise), the final object
state, the filesystem, and whether the pipeline loop (`get_lcs`) was run.
On the fresh path with data available, `get_lcs` runs and then lines 331-332
purge the cache once more when `no_lk_cache` is set. -/
def lightcurves_summary_file (env : GateEnv) (N : Nat) (st : EState) (fs : FS) :
    Except PyErr (Option LcTable × EState × FS × Bool) :=
  match lcPath st with
  | .error e => .error e
  | .ok path =>
    match FS.get fs path with
    | some a =>
      match tableRead a 1 with
      | .error e => .error e
      | .ok t => .ok (some t, st, fs, false)
    | Option.none =>
      let stN := { st with sectors_available := N }
      if 0 < N then
        match get_lcs env stN with
        | .error e => .error e
        | .ok stg => .ok (summaryWrite (if stg.no_lk_cache then stg.purge else stg) fs path true)
      else .ok (summaryWrite stN fs path false)

/-- Model of `EnsembleLC.access_lightcurve` (lines 350-392).  The result triple is
(whether the missing-artifact warning was printed, the figure, the table);
the figure is opaque.  A missing artifact prints the warning and returns
`(None, None)`; otherwise the stored count decides whether HDU `2` or HDU
`observation + 2` is read. -/
def access_lightcurve (st : EState) (fs : FS) (observation : Nat) :
    Except PyErr (Bool × Option Unit × Option LcTable) :=
  match lcPath st with
  | .error e => .error e
  | .ok path =>
    match FS.get fs path with
    | Option.none => .ok (true, Option.none, Option.none)
    | some a =>
      match tableRead a 1 with
      | .error e => .error e
      | .ok output_table =>
        match (if output_table.n_good_obs = 1 then tableRead a 2
               else tableRead a (observation + 2)) with
        | .error e => .error e
        | .ok lct => .ok (false, some (), some lct)

/-! ### Construction and reload -/

/-- The constructor arguments other than `cluster_name` and `location`.
Unit-bearing radius/age values are converted up front (lines 58-66); the
embedding takes the already-converted plain numbers, as the unit layer is an
external library. -/
structure InitArgs where
  radius : HVal
  cluster_age : HVal
  output_path : Option String
  percentile : Nat
  cutout_size : Nat
  scattered_light_frequency : Nat
  n_pca : Nat
  verbose : Bool
  no_lk_cache : Bool
  debug : Bool

/-- A Python optional string as a dynamic value. -/
def optStr : Option String → HVal
  | some s => .str s
  | Option.none => .none

/-- Model of `EnsembleLC.__init__` (lines 16-119).  `pathExists` models
`os.path.exists` and `userYes` the interactive directory-creation prompt
(both external).  The identifier assertion (lines 53-55) runs first; with
`no_lk_cache` and no output folder, `os.path.join(None, 'cache')` at line 80
raises `TypeError`; lines 85-98 set the subfolder save flags; lines 100-119
set the attributes and zero the four counters. -/
def init (cluster_name location : Option String) (a : InitArgs)
    (pathExists : String → Bool) (userYes : String → Bool) : Except PyErr EState :=
  if cluster_name = Option.none ∧ location = Option.none then .error .assertionError
  else
    let output_path : Option String :=
      match a.output_path with
      | Option.none => Option.none
      | some p => if pathExists p then some p else if userYes p then some p else Option.none
    if a.no_lk_cache ∧ output_path = Option.none then .error .typeError
    else
      let saveFlag : String → Bool := fun sub =>
        match output_path with
        | Option.none => false
        | some p => pathExists (p ++ "/" ++ sub) || userYes (p ++ "/" ++ sub)
      .ok
        { cluster_name := optStr cluster_name
          location := optStr location
          callable := if cluster_name ≠ Option.none then optStr cluster_name
                      else optStr location
          output_path := output_path
          radius := a.radius
          cluster_age := a.cluster_age
          percentile := a.percentile
          cutout_size := a.cutout_size
          scattered_light_frequency := a.scattered_light_frequency
          n_pca := a.n_pca
          verbose := a.verbose
          no_lk_cache := a.no_lk_cache
          debug := a.debug
          save_lcs := saveFlag "Corrected_LCs"
          save_figures := saveFlag "Figures/LCs"
          sectors_available := 0
          n_failed_download := 0
          n_near_edge := 0
          n_scattered_light := 0
          n_good_obs := 0
          lcs := []
          n_cache_purges := 0 }

/-- The base object `EnsembleLC(cluster_name="", radius=None,
cluster_age=None, output_path=None)` constructed at line 396 (no folder
prompts fire because `output_path` is `None`; `sectors_available` is the
not-yet-set attribute, modelled as `0`). -/
def fromFitsInit : EState :=
  { cluster_name := .str ""
    location := .none
    callable := .str ""
    output_path := Option.none
    radius := .none
    cluster_age := .none
    percentile := 80
    cutout_size := 99
    scattered_light_frequency := 5
    n_pca := 6
    verbose := false
    no_lk_cache := false
    debug := false
    save_lcs := false
    save_figures := false
    sectors_available := 0
    n_failed_download := 0
    n_near_edge := 0
    n_scattered_light := 0
    n_good_obs := 0
    lcs := []
    n_cache_purges := 0 }

/-- A header number read back into a counter attribute. -/
def asNat : HVal → Nat
  | .nat n => n
  | _ => 0

/-- Model of `from_fits` (lines 395-413): rebuilds an `EnsembleLC` from a persisted
artifact, reading the header keywords in source order and wrapping one
lightweight lightcurve per extension HDU. -/
def from_fits (art : Artifact) : Except PyErr EState :=
  match headerGet art.header "Name" with
  | .error e => .error e
  | .ok name =>
    match headerGet art.header "Location" with
    | .error e => .error e
    | .ok loc =>
      match headerGet art.header "Radius [deg]" with
      | .error e => .error e
      | .ok rad =>
        match headerGet art.header "Log_Age" with
        | .error e => .error e
        | .ok age =>
          match headerGet art.header "n_obs_available" with
          | .error e => .error e
          | .ok nObs =>
            match headerGet art.header "n_good_obs" with
            | .error e => .error e
            | .ok nGood =>
              match headerGet art.header "n_failed_download" with
              | .error e => .error e
              | .ok nDl =>
                match headerGet art.header "n_near_edge" with
                | .error e => .error e
                | .ok nEdge =>
                  match headerGet art.header "n_scattered_light" with
                  | .error e => .error e
                  | .ok nSc =>
                    .ok { fromFitsInit with
                      cluster_name := name
                      location := loc
                      callable := if name ≠ HVal.none then name else loc
                      radius := rad
                      cluster_age := age
                      sectors_available := asNat nObs
                      n_good_obs := asNat nGood
                      n_failed_download := asNat nDl
                      n_near_edge := asNat nEdge
                      n_scattered_light := asNat nSc
                      lcs := art.records.map some }

/-! ### Concrete sample inputs used by the witnesses -/

/-- A concrete stored time-series record. -/
def sampleTable : LcTable :=
  { time := [0, 1], flux := [5, 6], flux_err := [1, 1], n_good_obs := 1 }

/-- Gate oracles where only observation 0 downloads and every downloaded
observation passes the edge and scattered-light gates. -/
def c6Env : GateEnv :=
  { downloadOK := fun i => decide (i = 0)
    nearEdge := fun _ => false
    scatter := fun _ => false
    record := fun _ => sampleTable }

/-- A freshly constructed pipeline state with identifier `"c"` and output
folder `"out"`. -/
def c6St : EState :=
  { fromFitsInit with cluster_name := .str "c", callable := .str "c",
                      output_path := some "out" }

/-- The artifact path of `c6St`. -/
def c6Path : String := "out/Corrected_LCs/coutput_table.fits"

/-- The state after running the pipeline of `c6Env` on `c6St` with two
candidates (observation 0 passes; observation 1, the last, fails download
and aborts the run). -/
def c6St1 : EState :=
  { c6St with sectors_available := 2, n_good_obs := 1, n_failed_download := 1,
              lcs := [some sampleTable, Option.none] }

/-- The filesystem after the first save of `c6St1`. -/
def c6Fs1 : FS := [(c6Path, savedArtifact c6St1)]

/-! ### Claim theorems -/

/-- C9: Construction of the pipeline object with neither a cluster name
nor a location supplied fails immediately at construction (the `assert` at
lines 53-55 fires before any other work), for every combination of the
remaining configuration arguments and of the external filesystem/prompt
oracles. -/
theorem C9_constructor_rejects_missing_identifier (a : InitArgs)
    (pathExists userYes : String → Bool) :
    init Option.none Option.none a pathExists userYes = .error .assertionError := rfl

/-- C3: The persistence round-trip is broken in the code:
`lightcurves_summary_file` writes the log-age under the header keyword
`'Log Age'` (line 338) while `from_fits` reads `"Log_Age"` (line 403), so
reloading any artifact the pipeline saved raises `KeyError` instead of
reproducing the header metadata. -/
theorem C3_roundtrip_raises_keyerror (st : EState) :
    from_fits (savedArtifact st) = .error .keyError := rfl

/-- C2: When the `get_lcs` loop completes without a last-candidate abort
the procedure does not terminate normally: line 307 reads
`if self.no_lk_cache():`, calling a `bool`, so every such run raises
`TypeError` (and the once-after-the-loop cache purge at line 308 is never
reached).  Here observation 0 (of 1) passes all gates, with
`no_lk_cache=True`. -/
theorem C2_normal_completion_raises_typeerror :
    get_lcs
      { downloadOK := fun _ => true, nearEdge := fun _ => false,
        scatter := fun _ => false, record := fun _ => sampleTable }
      { c6St with sectors_available := 1, no_lk_cache := true }
      = .error .typeError := rfl

/-- C10: `flux_to_mag` maps the calibration flux 15000 exactly to the
calibration magnitude 10, and is strictly decreasing on positive fluxes. -/
theorem C10_flux_to_mag_calibration_and_monotone :
    flux_to_mag 15000 = 10 ∧
    ∀ f1 f2 : ℝ, 0 < f1 → f1 < f2 → flux_to_mag f2 < flux_to_mag f1 := by
  constructor
  · unfold flux_to_mag
    norm_num [Real.logb_one]
  · intro f1 f2 h1 h12
    have h2 : (0 : ℝ) < f2 := h1.trans h12
    have hdiv : (15000 : ℝ) / f2 < 15000 / f1 :=
      (div_lt_div_iff_of_pos_left (by norm_num) h2 h1).mpr h12
    have hpos : (0 : ℝ) < 15000 / f2 := by positivity
    have hlog := Real.logb_lt_logb (by norm_num : (1 : ℝ) < 10) hpos hdiv
    unfold flux_to_mag
    nlinarith [hlog]

/-- Witness for C10 at fluxes 1 < 2. -/
theorem C10_witness :
    (0 : ℝ) < 1 ∧ (1 : ℝ) < 2 ∧ flux_to_mag 2 < flux_to_mag 1 :=
  ⟨by norm_num, by norm_num,
    C10_flux_to_mag_calibration_and_monotone.2 1 2 (by norm_num) (by norm_num)⟩

/-! ### The gate loop (C1, C5) -/

/-- A cache purge leaves each gate's failure counter unchanged. -/
theorem purgeIf_gateCounter (s : EState) (g : Gate) :
    s.purgeIf.gateCounter g = s.gateCounter g := by
  unfold EState.purgeIf EState.purge
  split <;> cases g <;> rfl

/-- A cache purge leaves the good-observation counter unchanged. -/
theorem purgeIf_good (s : EState) : s.purgeIf.n_good_obs = s.n_good_obs := by
  unfold EState.purgeIf EState.purge
  split <;> rfl

/-- A gate failure increments exactly its own gate's counter. -/
theorem bump_gateCounter_self (s : EState) (g : Gate) :
    (s.bump (.failed g)).gateCounter g = s.gateCounter g + 1 := by
  cases g <;> rfl

/-- A gate failure leaves every other gate's counter unchanged. -/
theorem bump_gateCounter_other (s : EState) (g g' : Gate) (h : g' ≠ g) :
    (s.bump (.failed g)).gateCounter g' = s.gateCounter g' := by
  cases g <;> cases g' <;> first | rfl | exact absurd rfl h

/-- A gate failure leaves the good-observation counter unchanged. -/
theorem bump_failed_good (s : EState) (g : Gate) :
    (s.bump (.failed g)).n_good_obs = s.n_good_obs := by
  cases g <;> rfl

/-- The gate evaluation stops at the failing gate: the gates evaluated for
a failing observation are exactly the ones up to and including it. -/
theorem processObs_gates (env : GateEnv) (i : Nat) (g : Gate)
    (hfail : (processObs env i).1 = .failed g) :
    (processObs env i).2 = gatesThrough g := by
  unfold processObs at hfail ⊢
  split_ifs at hfail ⊢ <;> injection hfail with h <;> subst h <;> rfl

/-- C1: The position-dependent gate-failure policy of the `get_lcs`
loop: when the gate evaluation of observation `i` fails at gate `g`,
(1) exactly gate `g`'s counter is incremented, by exactly 1;
(2) the gates after `g` are not evaluated for index `i`;
(3) if `i` is not the last candidate index, the run from index `i`
continues as the run from index `i + 1` on the bumped state; and
(4) if `i` is the last candidate index, the run returns at once with the
abort flag set (no further gates, no further indices). -/
theorem C1_gate_failure_policy (env : GateEnv) (N i : Nat) (st : EState) (g : Gate)
    (hi : i < N) (hfail : (processObs env i).1 = .failed g) :
    ((st.purgeIf.bump (.failed g)).gateCounter g = st.gateCounter g + 1 ∧
     (∀ g', g' ≠ g → (st.purgeIf.bump (.failed g)).gateCounter g' = st.gateCounter g') ∧
     (st.purgeIf.bump (.failed g)).n_good_obs = st.n_good_obs) ∧
    ((processObs env i).2 = gatesThrough g) ∧
    (i + 1 < N →
      runSteps env N (List.range' i (N - i)) st
        = runSteps env N (List.range' (i + 1) (N - (i + 1))) (st.purgeIf.bump (.failed g))) ∧
    (i + 1 = N →
      runSteps env N (List.range' i (N - i)) st = (st.purgeIf.bump (.failed g), true)) := by
  have hcons : List.range' i (N - i) = i :: List.range' (i + 1) (N - (i + 1)) := by
    have h : N - i = (N - (i + 1)) + 1 := by omega
    rw [h, List.range'_succ]
  refine ⟨⟨?_, ?_, ?_⟩, ?_, ?_, ?_⟩
  · rw [bump_gateCounter_self, purgeIf_gateCounter]
  · intro g' hne
    rw [bump_gateCounter_other _ _ _ hne, purgeIf_gateCounter]
  · rw [bump_failed_good, purgeIf_good]
  · exact processObs_gates env i g hfail
  · intro hlt
    rw [hcons]
    simp only [runSteps, hfail]
    rw [if_pos hlt]
  · intro heq
    rw [hcons]
    simp only [runSteps, hfail]
    rw [if_neg (by omega)]

/-- Gate oracles where only observation 0 fails its download and every
other observation passes all gates. -/
def c1Env : GateEnv :=
  { downloadOK := fun i => decide (0 < i)
    nearEdge := fun _ => false
    scatter := fun _ => false
    record := fun _ => sampleTable }

/-- Witness for C1: with 2 candidates, a download failure at index 0 skips
to index 1. -/
theorem C1_witness :
    (0 : Nat) < 2 ∧ (processObs c1Env 0).1 = .failed .download ∧
    runSteps c1Env 2 (List.range' 0 2) c6St
      = runSteps c1Env 2 (List.range' 1 1) (c6St.purgeIf.bump (.failed .download)) :=
  ⟨by decide, by decide,
    (C1_gate_failure_policy c1Env 2 0 c6St .download (by decide) (by decide)).2.2.1
      (by decide)⟩

/-- A cache purge leaves the counter sum unchanged. -/
theorem purgeIf_counterSum (s : EState) : s.purgeIf.counterSum = s.counterSum := by
  unfold EState.purgeIf EState.purge
  split <;> rfl

/-- Every terminal fate adds exactly 1 to the counter sum. -/
theorem bump_counterSum (s : EState) (r : ObsResult) :
    (s.bump r).counterSum = s.counterSum + 1 := by
  rcases r with (g | _)
  · cases g <;> simp [EState.bump, EState.counterSum] <;> omega
  · simp [EState.bump, EState.counterSum]
    omega

/-- A cache purge leaves the counter vector unchanged. -/
theorem purgeIf_cv (s : EState) : s.purgeIf.cv = s.cv := by
  unfold EState.purgeIf EState.purge
  split <;> rfl

/-- Each loop iteration's counter mutation touches exactly one of the four
counters, adding exactly 1 to it. -/
theorem step_exactly_one (s : EState) (r : ObsResult) :
    (s.purgeIf.bump r).counterSum = s.counterSum + 1 ∧
    ∃ j : Fin 4, (s.purgeIf.bump r).cv j = s.cv j + 1 ∧
      ∀ m : Fin 4, m ≠ j → (s.purgeIf.bump r).cv m = s.cv m := by
  constructor
  · rw [bump_counterSum, purgeIf_counterSum]
  · have hcv := purgeIf_cv s
    rcases r with (g | _)
    · cases g
      · refine ⟨1, ?_, ?_⟩
        · rw [show ((s.purgeIf.bump (.failed .download)).cv 1)
              = s.purgeIf.n_failed_download + 1 from rfl, ← hcv]
          rfl
        · intro m hm
          have hmv := congrFun hcv m
          rw [← hmv]
          fin_cases m <;> first | rfl | exact absurd rfl hm
      · refine ⟨2, ?_, ?_⟩
        · rw [show ((s.purgeIf.bump (.failed .edge)).cv 2)
              = s.purgeIf.n_near_edge + 1 from rfl, ← hcv]
          rfl
        · intro m hm
          have hmv := congrFun hcv m
          rw [← hmv]
          fin_cases m <;> first | rfl | exact absurd rfl hm
      · refine ⟨3, ?_, ?_⟩
        · rw [show ((s.purgeIf.bump (.failed .scatter)).cv 3)
              = s.purgeIf.n_scattered_light + 1 from rfl, ← hcv]
          rfl
        · intro m hm
          have hmv := congrFun hcv m
          rw [← hmv]
          fin_cases m <;> first | rfl | exact absurd rfl hm
    · refine ⟨0, ?_, ?_⟩
      · rw [show ((s.purgeIf.bump .passed).cv 0) = s.purgeIf.n_good_obs + 1 from rfl,
          ← hcv]
        rfl
      · intro m hm
        have hmv := congrFun hcv m
        rw [← hmv]
        fin_cases m <;> first | rfl | exact absurd rfl hm

/-- Storing a record in a slot leaves the counter sum unchanged. -/
theorem counterSum_set_lcs (s : EState) (l : List (Option LcTable)) :
    ({ s with lcs := l } : EState).counterSum = s.counterSum := rfl

/-- The loop adds at most one terminal fate per processed index. -/
theorem runSteps_counterSum_le (env : GateEnv) (N : Nat) (l : List Nat) (st : EState) :
    (runSteps env N l st).1.counterSum ≤ st.counterSum + l.length := by
  induction l generalizing st with
  | nil => simp [runSteps]
  | cons i rest ih =>
    simp only [runSteps, List.length_cons]
    rcases hp : (processObs env i).1 with (g | _) <;> simp only [hp]
    · split
      · refine le_trans (ih _) ?_
        rw [bump_counterSum, purgeIf_counterSum]
        omega
      · rw [show ((st.purgeIf.bump (.failed g), true).1) = st.purgeIf.bump (.failed g)
            from rfl, bump_counterSum, purgeIf_counterSum]
        omega
    · refine le_trans (ih _) ?_
      rw [counterSum_set_lcs, bump_counterSum, purgeIf_counterSum]
      omega

/-- C5: Pipeline counter invariant: each loop iteration increments
exactly one of the four terminal-fate counters by exactly 1, and starting
from the zeroed counters of `__init__`, at every intermediate point (after
any prefix of the iterations) and after the full loop the counter sum is at
most `sectors_available`. -/
theorem C5_counter_invariant (env : GateEnv) (N k : Nat) (st : EState)
    (hz : st.counterSum = 0) :
    (∀ (s : EState) (r : ObsResult),
      (s.purgeIf.bump r).counterSum = s.counterSum + 1 ∧
      ∃ j : Fin 4, (s.purgeIf.bump r).cv j = s.cv j + 1 ∧
        ∀ m : Fin 4, m ≠ j → (s.purgeIf.bump r).cv m = s.cv m) ∧
    (runSteps env N ((List.range N).take k) st).1.counterSum ≤ N ∧
    (runSteps env N (List.range N) st).1.counterSum ≤ N := by
  refine ⟨fun s r => step_exactly_one s r, ?_, ?_⟩
  · have h := runSteps_counterSum_le env N ((List.range N).take k) st
    rw [List.length_take, List.length_range] at h
    omega
  · have h := runSteps_counterSum_le env N (List.range N) st
    rw [List.length_range] at h
    omega

/-- Witness for C5 on a concrete two-candidate run. -/
theorem C5_witness :
    c6St.counterSum = 0 ∧
    (runSteps c1Env 2 ((List.range 2).take 1) c6St).1.counterSum ≤ 2 ∧
    (runSteps c1Env 2 (List.range 2) c6St).1.counterSum ≤ 2 :=
  ⟨rfl, (C5_counter_invariant c1Env 2 1 c6St rfl).2.1,
    (C5_counter_invariant c1Env 2 1 c6St rfl).2.2⟩

/-! ### The scattered-light detector (C4) -/

/-- Comparing a fold of `max _ |·|` against a threshold. -/
theorem foldl_maxAbs_gt (c a : ℚ) (xs : List ℚ) :
    c < xs.foldl (fun m x => max m |x|) a ↔ c < a ∨ ∃ x ∈ xs, c < |x| := by
  induction xs generalizing a with
  | nil => simp
  | cons x xs ih =>
    simp only [List.foldl_cons, ih, lt_max_iff, List.mem_cons]
    constructor
    · rintro ((h | h) | ⟨y, hy, hcy⟩)
      · exact Or.inl h
      · exact Or.inr ⟨x, Or.inl rfl, h⟩
      · exact Or.inr ⟨y, Or.inr hy, hcy⟩
    · rintro (h | ⟨y, (rfl | hy), hcy⟩)
      · exact Or.inl (Or.inl h)
      · exact Or.inl (Or.inr hcy)
      · exact Or.inr ⟨y, hy, hcy⟩

/-- The value `maxAbs xs` exceeds a nonnegative threshold iff some element does in
absolute value. -/
theorem maxAbs_gt_iff (c : ℚ) (hc : 0 ≤ c) (xs : List ℚ) :
    c < maxAbs xs ↔ ∃ x ∈ xs, c < |x| := by
  unfold maxAbs
  rw [foldl_maxAbs_gt]
  simp [not_lt.mpr hc]

/-- Position `j` indexes a sampled frame iff the index `j * freq` lies
below the stack length. -/
theorem timeSteps_count_iff (n freq j : Nat) (hf : 1 ≤ freq) :
    j < (n + freq - 1) / freq ↔ j * freq < n := by
  rw [Nat.lt_iff_add_one_le, Nat.le_div_iff_mul_le (by omega : 0 < freq),
    Nat.succ_mul]
  omega

/-- Membership in the sampled index list. -/
theorem timeSteps_mem (n freq : Nat) (hf : 1 ≤ freq) (k : Nat) :
    k ∈ timeSteps n freq ↔ ∃ j, k = j * freq ∧ k < n := by
  unfold timeSteps
  simp only [List.mem_map, List.mem_range]
  constructor
  · rintro ⟨j, hj, rfl⟩
    exact ⟨j, rfl, (timeSteps_count_iff n freq j hf).mp hj⟩
  · rintro ⟨j, rfl, hk⟩
    exact ⟨j, (timeSteps_count_iff n freq j hf).mpr hk, rfl⟩

/-- With a stride at least the (positive) stack length there is exactly one
sample, index 0. -/
theorem timeSteps_degenerate (n freq : Nat) (hn : 0 < n) (hnf : n ≤ freq) :
    timeSteps n freq = [0] := by
  unfold timeSteps
  have h1 : (n + freq - 1) / freq = 1 := by
    have hle : 1 ≤ (n + freq - 1) / freq :=
      (Nat.le_div_iff_mul_le (by omega : 0 < freq)).mpr (by omega)
    have hlt : (n + freq - 1) / freq < 2 :=
      Nat.div_lt_of_lt_mul (by omega)
    omega
  rw [h1, show List.range 1 = [0] from rfl]
  simp

/-- C4: The scattered-light detector (debug off): it samples the frame
indices `0, stride, 2·stride, …` strictly below the stack length (exactly
one sample, index 0, when the stride is at least the positive stack length),
and reports contamination iff `max|c| > 2.5` or
(`max|a| > 0.02` and `max|b| > 0.02`) over the plane coefficients
`(a, b, c)` fitted to the sampled frames. -/
theorem C4_scattered_light_detector (freq n : Nat) (fit : Nat → ℚ × ℚ × ℚ)
    (hf : 1 ≤ freq) :
    (∀ k, k ∈ timeSteps n freq ↔ ∃ j, k = j * freq ∧ k < n) ∧
    (0 < n → n ≤ freq → timeSteps n freq = [0]) ∧
    (scattered_light false freq n fit = true ↔
      ((∃ k ∈ timeSteps n freq, 5/2 < |(fit k).2.2|) ∨
       ((∃ k ∈ timeSteps n freq, 1/50 < |(fit k).1|) ∧
        (∃ k ∈ timeSteps n freq, 1/50 < |(fit k).2.1|)))) := by
  refine ⟨timeSteps_mem n freq hf, fun hn hnf => timeSteps_degenerate n freq hn hnf, ?_⟩
  unfold scattered_light
  simp only [Bool.false_eq_true, if_false, Bool.or_eq_true, Bool.and_eq_true,
    decide_eq_true_eq, gt_iff_lt, List.map_map]
  rw [maxAbs_gt_iff _ (by norm_num), maxAbs_gt_iff _ (by norm_num),
    maxAbs_gt_iff _ (by norm_num)]
  simp [List.mem_map, Function.comp]

/-- Witness for C4 with stride 5 and a stack of 7 residual frames whose
fitted planes all have intercept 3. -/
theorem C4_witness :
    1 ≤ 5 ∧
    ((∀ k, k ∈ timeSteps 7 5 ↔ ∃ j, k = j * 5 ∧ k < 7) ∧
     (0 < 7 → 7 ≤ 5 → timeSteps 7 5 = [0]) ∧
     (scattered_light false 5 7 (fun _ => ((0 : ℚ), (0 : ℚ), (3 : ℚ))) = true ↔
       ((∃ k ∈ timeSteps 7 5, 5/2 < |((fun _ => ((0 : ℚ), (0 : ℚ), (3 : ℚ))) k).2.2|) ∨
        ((∃ k ∈ timeSteps 7 5, 1/50 < |((fun _ => ((0 : ℚ), (0 : ℚ), (3 : ℚ))) k).1|) ∧
         (∃ k ∈ timeSteps 7 5, 1/50 < |((fun _ => ((0 : ℚ), (0 : ℚ), (3 : ℚ))) k).2.1|))))) :=
  ⟨by decide, C4_scattered_light_detector 5 7 (fun _ => (0, 0, 3)) (by decide)⟩

/-! ### Persistence (C6, C7, C8) -/

/-- A successful `lcPath` means the output folder is configured and the path
is the standard artifact path. -/
theorem lcPath_ok (st : EState) (path : String) (hp : lcPath st = .ok path) :
    ∃ p0, st.output_path = some p0 ∧ path = lcPathStr p0 st := by
  unfold lcPath at hp
  split at hp
  · simp at hp
  · next p0 hop =>
    injection hp with h
    exact ⟨p0, hop, h.symm⟩

/-- Loop-counter and slot mutations do not touch the configuration
attributes. -/
theorem purgeIf_bump_config (s : EState) (r : ObsResult) :
    (s.purgeIf.bump r).output_path = s.output_path ∧
    (s.purgeIf.bump r).callable = s.callable ∧
    (s.purgeIf.bump r).no_lk_cache = s.no_lk_cache := by
  unfold EState.purgeIf EState.purge
  split_ifs
  all_goals rcases r with (g | _)
  all_goals try cases g
  all_goals exact ⟨rfl, rfl, rfl⟩

/-- The gate loop does not touch the configuration attributes. -/
theorem runSteps_config (env : GateEnv) (N : Nat) (l : List Nat) (st : EState) :
    (runSteps env N l st).1.output_path = st.output_path ∧
    (runSteps env N l st).1.callable = st.callable ∧
    (runSteps env N l st).1.no_lk_cache = st.no_lk_cache := by
  induction l generalizing st with
  | nil => exact ⟨rfl, rfl, rfl⟩
  | cons i rest ih =>
    simp only [runSteps]
    rcases hp : (processObs env i).1 with (g | _) <;> simp only [hp]
    · obtain ⟨p1, p2, p3⟩ := purgeIf_bump_config st (.failed g)
      split
      · obtain ⟨h1, h2, h3⟩ := ih (st.purgeIf.bump (.failed g))
        exact ⟨h1.trans p1, h2.trans p2, h3.trans p3⟩
      · exact ⟨p1, p2, p3⟩
    · obtain ⟨p1, p2, p3⟩ := purgeIf_bump_config st .passed
      obtain ⟨h1, h2, h3⟩ :=
        ih { st.purgeIf.bump .passed with
              lcs := (st.purgeIf.bump .passed).lcs.set i (some (env.record i)) }
      exact ⟨h1.trans p1, h2.trans p2, h3.trans p3⟩

/-- Running `get_lcs` does not touch the configuration attributes. -/
theorem get_lcs_config (env : GateEnv) (st st' : EState)
    (h : get_lcs env st = .ok st') :
    st'.output_path = st.output_path ∧ st'.callable = st.callable := by
  simp only [get_lcs] at h
  split at h
  · injection h with h2
    obtain ⟨h1, hc, _⟩ := runSteps_config env st.sectors_available
      (List.range st.sectors_available)
      { st with lcs := List.replicate st.sectors_available none }
    rw [← h2]
    exact ⟨h1, hc⟩
  · simp at h

/-- The post-loop conditional purge (lines 331-332) does not touch the
configuration attributes. -/
theorem condPurge_config (s : EState) :
    (if s.no_lk_cache then s.purge else s).output_path = s.output_path ∧
    (if s.no_lk_cache then s.purge else s).callable = s.callable := by
  split <;> exact ⟨rfl, rfl⟩

/-- The artifact path only depends on the configuration attributes. -/
theorem lcPathStr_congr (p : String) (st st' : EState)
    (h : st'.callable = st.callable) : lcPathStr p st' = lcPathStr p st := by
  unfold lcPathStr
  rw [h]

/-- Reading back the artifact just written. -/
theorem FS.get_put (fs : FS) (p : String) (a : Artifact) :
    FS.get (FS.put fs p a) p = some a := by
  unfold FS.get FS.put
  rw [List.find?_cons_of_pos _ (by simp)]
  rfl

/-- On the fresh-filesystem path with data available and a run that returns,
the save writes the artifact of the post-loop state. -/
theorem summary_fresh_eq (env : GateEnv) (N : Nat) (st : EState) (fs : FS)
    (path : String) (stg : EState)
    (hp : lcPath st = .ok path) (hfresh : FS.get fs path = Option.none)
    (hN : 0 < N) (hg : get_lcs env { st with sectors_available := N } = .ok stg) :
    lightcurves_summary_file env N st fs
      = .ok (summaryWrite (if stg.no_lk_cache then stg.purge else stg) fs path true) := by
  unfold lightcurves_summary_file
  rw [hp]
  simp only [hfresh, hN, if_true, hg]

/-- On the fresh-filesystem path, a raising `get_lcs` propagates. -/
theorem summary_fresh_err (env : GateEnv) (N : Nat) (st : EState) (fs : FS)
    (path : String) (e : PyErr)
    (hp : lcPath st = .ok path) (hfresh : FS.get fs path = Option.none)
    (hN : 0 < N) (hg : get_lcs env { st with sectors_available := N } = .error e) :
    lightcurves_summary_file env N st fs = .error e := by
  unfold lightcurves_summary_file
  rw [hp]
  simp only [hfresh, hN, if_true, hg]

/-- C6: Idempotence of the save: (i) when the artifact already exists,
`lightcurves_summary_file` returns the stored summary table read from it,
does not run the pipeline loop and leaves the filesystem unchanged;
(ii) after a successful first save on a fresh filesystem, the artifact is
persisted, and a second call returns its stored summary with state and
filesystem unchanged (no overwrite, no pipeline re-run). -/
theorem C6_save_idempotent :
    (∀ (env : GateEnv) (N : Nat) (st : EState) (fs : FS) (path : String)
        (a : Artifact) (t : LcTable),
      lcPath st = .ok path → FS.get fs path = some a → tableRead a 1 = .ok t →
      lightcurves_summary_file env N st fs = .ok (some t, st, fs, false)) ∧
    (∀ (env env2 : GateEnv) (N N2 : Nat) (st : EState) (fs : FS) (path : String)
        (r1 : Option LcTable) (st1 : EState) (fs1 : FS) (ran1 : Bool),
      lcPath st = .ok path → FS.get fs path = Option.none →
      lightcurves_summary_file env N st fs = .ok (r1, st1, fs1, ran1) →
      ∃ a, FS.get fs1 path = some a ∧
        ∀ t, tableRead a 1 = .ok t →
          lightcurves_summary_file env2 N2 st1 fs1 = .ok (some t, st1, fs1, false)) := by
  have short : ∀ (env : GateEnv) (N : Nat) (st : EState) (fs : FS) (path : String)
      (a : Artifact) (t : LcTable),
      lcPath st = .ok path → FS.get fs path = some a → tableRead a 1 = .ok t →
      lightcurves_summary_file env N st fs = .ok (some t, st, fs, false) := by
    intro env N st fs path a t hp ha ht
    unfold lightcurves_summary_file
    rw [hp]
    simp only [ha, ht]
  refine ⟨short, ?_⟩
  intro env env2 N N2 st fs path r1 st1 fs1 ran1 hp hfresh hfirst
  obtain ⟨p0, hop, hpath⟩ := lcPath_ok st path hp
  have main : ∀ (st2 : EState) (ran : Bool), st2.output_path = st.output_path →
      st2.callable = st.callable →
      (.ok (summaryWrite st2 fs path ran) :
        Except PyErr (Option LcTable × EState × FS × Bool)) = .ok (r1, st1, fs1, ran1) →
      ∃ a, FS.get fs1 path = some a ∧
        ∀ t, tableRead a 1 = .ok t →
          lightcurves_summary_file env2 N2 st1 fs1 = .ok (some t, st1, fs1, false) := by
    intro st2 ran ho2 hc2 heq
    have hsome : st2.output_path.isSome = true := by rw [ho2, hop]; rfl
    unfold summaryWrite at heq
    rw [if_pos hsome] at heq
    injection heq with heq
    rw [Prod.mk.injEq, Prod.mk.injEq, Prod.mk.injEq] at heq
    obtain ⟨h1, h2, h3, h4⟩ := heq
    subst h2
    subst h3
    refine ⟨savedArtifact st2, FS.get_put fs path (savedArtifact st2), ?_⟩
    intro t ht
    have hp1 : lcPath st2 = .ok path := by
      unfold lcPath
      rw [ho2, hop]
      exact congrArg Except.ok ((lcPathStr_congr p0 st st2 hc2).trans hpath.symm)
    exact short env2 N2 st2 (FS.put fs path (savedArtifact st2)) path
      (savedArtifact st2) t hp1 (FS.get_put fs path (savedArtifact st2)) ht
  by_cases hN : 0 < N
  · cases hg : get_lcs env { st with sectors_available := N } with
    | error e =>
      rw [summary_fresh_err env N st fs path e hp hfresh hN hg] at hfirst
      exact absurd hfirst (by simp)
    | ok stg =>
      rw [summary_fresh_eq env N st fs path stg hp hfresh hN hg] at hfirst
      obtain ⟨ho1, hc1⟩ := get_lcs_config env _ stg hg
      have ho1' : stg.output_path = st.output_path := ho1
      have hc1' : stg.callable = st.callable := hc1
      obtain ⟨cp1, cp2⟩ := condPurge_config stg
      exact main (if stg.no_lk_cache then stg.purge else stg) true
        (cp1.trans ho1') (cp2.trans hc1') hfirst
  · have hcomp : lightcurves_summary_file env N st fs
        = .ok (summaryWrite { st with sectors_available := N } fs path false) := by
      unfold lightcurves_summary_file
      rw [hp]
      simp [hfresh, hN]
    rw [hcomp] at hfirst
    exact main { st with sectors_available := N } false rfl rfl hfirst

/-- Witness for C6: a fresh save of a two-candidate run (one good record,
last candidate aborts on download), then the idempotent second call. -/
theorem C6_witness :
    lcPath c6St = .ok c6Path ∧
    FS.get ([] : FS) c6Path = Option.none ∧
    lightcurves_summary_file c6Env 2 c6St [] = .ok (Option.none, c6St1, c6Fs1, true) ∧
    (∃ a, FS.get c6Fs1 c6Path = some a ∧
      ∀ t, tableRead a 1 = .ok t →
        lightcurves_summary_file c6Env 2 c6St1 c6Fs1 = .ok (some t, c6St1, c6Fs1, false)) ∧
    lightcurves_summary_file c6Env 2 c6St1 c6Fs1
      = .ok (some sampleTable, c6St1, c6Fs1, false) :=
  ⟨rfl, rfl, rfl,
    C6_save_idempotent.2 c6Env c6Env 2 2 c6St [] c6Path Option.none c6St1 c6Fs1 true
      rfl rfl rfl,
    C6_save_idempotent.1 c6Env 2 c6St1 c6Fs1 c6Path (savedArtifact c6St1) sampleTable
      rfl rfl rfl⟩

/-- C7: Access-by-index: when the persisted artifact does not exist,
`access_lightcurve` prints the warning and returns the empty pair without
raising; when it exists, the call returns the stored time-series record at
HDU position 2 when the stored good-observation count is exactly 1, and at
position `observation + 2` otherwise. -/
theorem C7_access_by_index (st : EState) (fs : FS) (obs : Nat) (path : String)
    (hp : lcPath st = .ok path) :
    (FS.get fs path = Option.none →
      access_lightcurve st fs obs = .ok (true, Option.none, Option.none)) ∧
    (∀ a t0, FS.get fs path = some a → tableRead a 1 = .ok t0 →
      ∀ t, (if t0.n_good_obs = 1 then tableRead a 2 else tableRead a (obs + 2)) = .ok t →
        access_lightcurve st fs obs = .ok (false, some (), some t)) := by
  constructor
  · intro hmiss
    unfold access_lightcurve
    rw [hp]
    simp only [hmiss]
  · intro a t0 ha ht0 t ht
    unfold access_lightcurve
    rw [hp]
    simp only [ha, ht0, ht]

/-- A stored record with good-observation count 2 and flux level `j`. -/
def c7Tab (j : Nat) : LcTable :=
  { time := [0], flux := [(j : ℚ)], flux_err := [1], n_good_obs := 2 }

/-- A persisted artifact with three stored records. -/
def c7Art : Artifact := { header := [], records := [c7Tab 0, c7Tab 1, c7Tab 2] }

/-- A filesystem holding `c7Art` at the artifact path of `c6St`. -/
def c7Fs : FS := [(c6Path, c7Art)]

/-- Witness for C7: a missing artifact returns the empty pair, and an
artifact with three records and good count 2 serves observation 1 from HDU
position 3. -/
theorem C7_witness :
    lcPath c6St = .ok c6Path ∧
    access_lightcurve c6St [] 1 = .ok (true, Option.none, Option.none) ∧
    access_lightcurve c6St c7Fs 1 = .ok (false, some (), some (c7Tab 2)) :=
  ⟨rfl, (C7_access_by_index c6St [] 1 c6Path rfl).1 rfl,
    (C7_access_by_index c6St c7Fs 1 c6Path rfl).2 c7Art (c7Tab 0) rfl rfl
      (c7Tab 2) rfl⟩

/-- C8 refuted: With no output location configured,
`lightcurves_summary_file` does not skip persistence quietly: line 318
evaluates `os.path.join(self.output_path, …)` before the
`output_path is not None` guard at line 347, so the call raises `TypeError`
instead of completing without error. -/
theorem C8_missing_output_path_raises (env : GateEnv) (N : Nat) (st : EState)
    (fs : FS) (h : st.output_path = Option.none) :
    lightcurves_summary_file env N st fs = .error .typeError := by
  unfold lightcurves_summary_file lcPath
  rw [h]

/-- Witness for C8 at the concrete no-output-folder state. -/
theorem C8_witness :
    fromFitsInit.output_path = Option.none ∧
    lightcurves_summary_file c1Env 1 fromFitsInit [] = .error .typeError :=
  ⟨rfl, C8_missing_output_path_raises c1Env 1 fromFitsInit [] rfl⟩

end Elk
